import Mathlib

/-!
Shallow embedding of `src/Source/Common/MessageEvent.h` from the
SeNaviCommon repository (namespace `NS_NaviCommon`, class template
`MessageEvent<M>`), together with theorems settling the specification
claims about it.

Modelling conventions:
* `boost::shared_ptr` payload references are heap addresses (`Ptr := Nat`);
  pointer identity is address equality and `shared_ptr::operator<` is the
  address order.
* Payload contents live in an explicit heap `MsgHeap` (address → value,
  plus an allocation frontier `next`); `boost::make_shared<M>()` allocates
  the fresh address `next`, default-initialized.
* The class template's constness parameter (`boost::is_const<M>`) and the
  void placeholder instantiation (`boost::is_void<M2>`) become explicit
  `Bool` arguments `isConst` / `isVoid`, mirroring the `enable_if`
  dispatch in the source.
* The mutable cache write performed by `copyMessageIfNecessary` (a `const`
  method writing the `mutable message_copy_` field) is modelled by state
  passing: the method returns the updated envelope and heap, plus a count
  of how many times the factory `create_` was invoked.
* `boost::function<MessagePtr()>` may be empty, so `create_` is an
  `Option Factory`; the `assert(create_)` in the source becomes the
  `Except.error` outcome (fail fast / abort).
-/

namespace NS_NaviCommon

/-- Heap address standing for a `boost::shared_ptr` reference. -/
abbrev Ptr := Nat

/-- Payload contents stored at an address. -/
abbrev Val := Nat

/-- Modelled from the spec: `Time` (from `../Time/Time.h`, not under `src/`)
is "a receipt timestamp type with total ordering and equality"; a natural
number carries exactly that structure. -/
abbrev Time := Nat

/-- Modelled from the spec: `StringMap` (from `Declare.h`, not under
`src/`) is the "optional shared mapping from header-field name to string
value", i.e. `std::map<std::string, std::string>`; an association list
with unique keys. -/
abbrev StringMap := List (String × String)

/-- `std::map::find`-style lookup: the value stored under key `k`, if any. -/
def mapFind? (m : StringMap) (k : String) : Option String :=
  (m.find? (fun e => e.1 == k)).map Prod.snd

/-- `std::map<std::string,std::string>::operator[]`: returns the value
stored under `k`; if `k` is absent it first inserts a value-initialized
(empty) string under `k`.  Returns the looked-up value and the
possibly-updated map. -/
def mapIndex (m : StringMap) (k : String) : String × StringMap :=
  match mapFind? m k with
  | some v => (v, m)
  | none => ("", m ++ [(k, "")])

/-- Heap of payload objects: contents at each address and the next fresh
address (allocation frontier). -/
structure MsgHeap where
  store : Ptr → Val
  next : Ptr

/-- Store `v` at address `p` (models `*ptr = v`). -/
def MsgHeap.write (h : MsgHeap) (p : Ptr) (v : Val) : MsgHeap :=
  ⟨fun q => if q = p then v else h.store q, h.next⟩

/-- `CreateFunction = boost::function<MessagePtr()>`: a factory that
allocates a message instance, returning its address and the new heap. -/
abbrev Factory := MsgHeap → Ptr × MsgHeap

/-- `DefaultMessageCreator<M>::operator()`: `boost::make_shared<M>()`,
i.e. allocate a fresh, default-initialized instance at the frontier. -/
def defaultMessageCreator : Factory :=
  fun h => (h.next, ⟨fun q => if q = h.next then 0 else h.store q, h.next + 1⟩)

/-- The fields of `MessageEvent<M>` (lines 267–273 of the source):
`message_` (the received shared payload), `message_copy_` (the mutable
lazily-populated copy cache), `connection_header_` (optional shared
header mapping, as an address into a header store), `receipt_time_`,
`nonconst_need_copy_`, and `create_` (possibly-empty factory). -/
structure MessageEvent where
  message_ : Ptr
  message_copy_ : Option Ptr
  connection_header_ : Option Ptr
  receipt_time_ : Time
  nonconst_need_copy_ : Bool
  create_ : Option Factory

/-- The static sentinel `s_unknown_publisher_string_` (line 279). -/
def s_unknown_publisher_string_ : String := "unknown_publisher"

/-- A store of header mappings, indexed by the shared-pointer address an
envelope's `connection_header_` holds; envelopes sharing the same address
share the same mapping. -/
abbrev HeaderStore := Ptr → StringMap

/-- `getPublisherName` (lines 185–190):
`connection_header_ ? (*connection_header_)["callerid"] : s_unknown_publisher_string_`.
The `operator[]` call may insert into the shared mapping, so the
possibly-updated header store is returned alongside the string. -/
def getPublisherName (e : MessageEvent) (st : HeaderStore) : String × HeaderStore :=
  match e.connection_header_ with
  | none => (s_unknown_publisher_string_, st)
  | some hp =>
    let r := mapIndex (st hp) "callerid"
    (r.1, fun q => if q = hp then r.2 else st q)

/-- The non-void overload of `copyMessageIfNecessary` (lines 241–259).
Returns the resulting payload address, the updated envelope (the
`mutable message_copy_` write), the updated heap, and the number of
factory invocations; `Except.error` models the `assert(create_)`
firing (abort). -/
def copyMessageIfNecessary (isConst : Bool) (e : MessageEvent) (h : MsgHeap) :
    Except String (Ptr × MessageEvent × MsgHeap × Nat) :=
  if isConst || !e.nonconst_need_copy_ then
    -- return boost::const_pointer_cast<Message>(message_);
    .ok (e.message_, e, h, 0)
  else
    match e.message_copy_ with
    | some c =>
      -- if (message_copy_) return message_copy_;
      .ok (c, e, h, 0)
    | none =>
      match e.create_ with
      | none => .error "assert(create_)"
      | some f =>
        -- message_copy_ = create_(); *message_copy_ = *message_;
        let r := f h
        let h2 := r.2.write r.1 (r.2.store e.message_)
        .ok (r.1, { e with message_copy_ := some r.1 }, h2, 1)

/-- `getMessage` (lines 155–158): dispatches to the void overload of
`copyMessageIfNecessary` (lines 261–265, a plain
`const_pointer_cast` of `message_`) or to the non-void one. -/
def getMessage (isVoid isConst : Bool) (e : MessageEvent) (h : MsgHeap) :
    Except String (Ptr × MessageEvent × MsgHeap × Nat) :=
  if isVoid then
    -- return boost::const_pointer_cast<Message>(message_);
    .ok (e.message_, e, h, 0)
  else
    copyMessageIfNecessary isConst e h

/-- `n` successive `getMessage` calls on a non-void envelope, threading
the envelope state and heap; collects the returned payload addresses and
the total number of factory invocations. -/
def getMessageIter (isConst : Bool) :
    Nat → MessageEvent → MsgHeap → Except String (List Ptr × MessageEvent × MsgHeap × Nat)
  | 0, e, h => .ok ([], e, h, 0)
  | n + 1, e, h =>
    match copyMessageIfNecessary isConst e h with
    | .error s => .error s
    | .ok (p, e', h', k) =>
      match getMessageIter isConst n e' h' with
      | .error s => .error s
      | .ok (ps, e'', h'', k') => .ok (p :: ps, e'', h'', k + k')

/-- `init` (lines 120–130): assigns the five listed fields and leaves
`message_copy_` untouched. -/
def init (message : Ptr) (connection_header : Option Ptr) (receipt_time : Time)
    (nonconst_need_copy : Bool) (create : Option Factory) (e : MessageEvent) :
    MessageEvent :=
  { e with
    message_ := message
    connection_header_ := connection_header
    receipt_time_ := receipt_time
    nonconst_need_copy_ := nonconst_need_copy
    create_ := create }

/-- The cross-qualification `operator=` (lines 132–148): calls
`init(rhs.getMessage(), rhs.getConnectionHeaderPtr(), rhs.getReceiptTime(),
rhs.nonConstWillCopy(), rhs.getMessageFactory())` and then
`message_copy_.reset()`.  `rhsIsConst` records whether `rhs` is the
const-typed envelope (its `getMessage` then always aliases) or the
mutable-typed one (its `getMessage` may materialize a copy inside `rhs`).
Returns the assigned-to envelope, the possibly-updated `rhs` and heap. -/
def assign (rhsIsConst : Bool) (lhs rhs : MessageEvent) (h : MsgHeap) :
    Except String (MessageEvent × MessageEvent × MsgHeap) :=
  match getMessage false rhsIsConst rhs h with
  | .error s => .error s
  | .ok (p, rhs', h', _) =>
    let lhs' := init p rhs'.connection_header_ rhs'.receipt_time_
      rhs'.nonconst_need_copy_ rhs'.create_ lhs
    .ok ({ lhs' with message_copy_ := none }, rhs', h')

/-- `nonConstWillCopy` (lines 200–203). -/
def nonConstWillCopy (e : MessageEvent) : Bool :=
  e.nonconst_need_copy_

/-- `getMessageWillCopy` (lines 204–207). -/
def getMessageWillCopy (isConst : Bool) (e : MessageEvent) : Bool :=
  !isConst && e.nonconst_need_copy_

/-- `operator<` (lines 209–222): compares `message_`, then
`receipt_time_`, then `nonconst_need_copy_` (C++ `bool` comparison is by
integer promotion). -/
def ltOp (l r : MessageEvent) : Bool :=
  if l.message_ ≠ r.message_ then
    decide (l.message_ < r.message_)
  else if l.receipt_time_ ≠ r.receipt_time_ then
    decide (l.receipt_time_ < r.receipt_time_)
  else
    decide (l.nonconst_need_copy_.toNat < r.nonconst_need_copy_.toNat)

/-- Stated from the spec, for comparison with `ltOp`: the lexicographic
order over the triple (payload identity, receipt time, copy-needed
flag). -/
def ltLexSpec (l r : MessageEvent) : Bool :=
  decide (l.message_ < r.message_ ∨
    (l.message_ = r.message_ ∧
      (l.receipt_time_ < r.receipt_time_ ∨
        (l.receipt_time_ = r.receipt_time_ ∧
          l.nonconst_need_copy_.toNat < r.nonconst_need_copy_.toNat))))

/-! Helper lemmas shared by the claim theorems. -/

/-- With the copy-needed flag set and the cache already populated, the
non-void `copyMessageIfNecessary` returns the cached copy and changes
nothing. -/
theorem copy_cached_stable (e : MessageEvent) (h : MsgHeap) (c : Ptr)
    (hn : e.nonconst_need_copy_ = true) (hc : e.message_copy_ = some c) :
    copyMessageIfNecessary false e h = .ok (c, e, h, 0) := by
  simp [copyMessageIfNecessary, hn, hc]

/-- With the copy-needed flag set, an empty cache and a factory present,
the non-void `copyMessageIfNecessary` materializes: it invokes the
factory once, assigns the original payload's contents into the fresh
instance, caches it and returns it. -/
theorem copy_materializes (e : MessageEvent) (h : MsgHeap) (f : Factory)
    (hn : e.nonconst_need_copy_ = true) (h0 : e.message_copy_ = none)
    (hf : e.create_ = some f) :
    copyMessageIfNecessary false e h =
      .ok ((f h).1, { e with message_copy_ := some (f h).1 },
        (f h).2.write (f h).1 ((f h).2.store e.message_), 1) := by
  simp [copyMessageIfNecessary, hn, h0, hf]

/-- Once the cache holds `c` (and the copy-needed flag is set), any run
of successive accesses returns `c` every time with no factory call and
no state change. -/
theorem iter_cached_stable (n : Nat) (e : MessageEvent) (h : MsgHeap) (c : Ptr)
    (hn : e.nonconst_need_copy_ = true) (hc : e.message_copy_ = some c) :
    getMessageIter false n e h = .ok (List.replicate n c, e, h, 0) := by
  induction n with
  | zero => simp [getMessageIter]
  | succ n ih =>
    simp [getMessageIter, copy_cached_stable e h c hn hc, ih, List.replicate_succ]

/-- `getMessage` can only write the `mutable message_copy_` field of the
envelope it is called on: the other five fields are untouched. -/
theorem getMessage_frame (v c : Bool) (e : MessageEvent) (h : MsgHeap)
    (p : Ptr) (e' : MessageEvent) (h' : MsgHeap) (k : Nat)
    (hok : getMessage v c e h = .ok (p, e', h', k)) :
    e'.message_ = e.message_ ∧
    e'.connection_header_ = e.connection_header_ ∧
    e'.receipt_time_ = e.receipt_time_ ∧
    e'.nonconst_need_copy_ = e.nonconst_need_copy_ ∧
    e'.create_ = e.create_ := by
  unfold getMessage copyMessageIfNecessary at hok
  split at hok
  · cases hok; exact ⟨rfl, rfl, rfl, rfl, rfl⟩
  · split at hok
    · cases hok; exact ⟨rfl, rfl, rfl, rfl, rfl⟩
    · cases hm : e.message_copy_ <;> rw [hm] at hok
      · cases hf : e.create_ <;> rw [hf] at hok
        · cases hok
        · cases hok; exact ⟨rfl, rfl, rfl, rfl, rfl⟩
      · cases hok; exact ⟨rfl, rfl, rfl, rfl, rfl⟩

/-- Claim C1: for a mutable-view envelope (isConst = false) with the
copy-needed flag true (and a factory present, as construction
guarantees), any number `n + 1` of successive `getMessage` calls invokes
the factory exactly once in total, and every call returns the identical
copy instance `p`, which is exactly the cached copy. -/
theorem c1_single_materialization (e : MessageEvent) (h : MsgHeap) (f : Factory) (n : Nat)
    (hn : e.nonconst_need_copy_ = true) (h0 : e.message_copy_ = none)
    (hf : e.create_ = some f) :
    ∃ p e' h', getMessageIter false (n + 1) e h = .ok (List.replicate (n + 1) p, e', h', 1) ∧
      e'.message_copy_ = some p := by
  refine ⟨(f h).1, { e with message_copy_ := some (f h).1 },
    (f h).2.write (f h).1 ((f h).2.store e.message_), ?_, rfl⟩
  have hstable := iter_cached_stable n { e with message_copy_ := some (f h).1 }
    ((f h).2.write (f h).1 ((f h).2.store e.message_)) (f h).1 hn rfl
  simp [getMessageIter, copy_materializes e h f hn h0 hf, hstable, List.replicate_succ]

/-- Witness for C1 at a concrete envelope and heap: three accesses on a
copy-needed mutable-view envelope with the default factory yield the
same instance three times and one factory call. -/
theorem c1_single_materialization_witness :
    ∃ p e' h',
      getMessageIter false 3 ⟨0, none, none, 7, true, some defaultMessageCreator⟩
        ⟨fun _ => 5, 1⟩ = .ok (List.replicate 3 p, e', h', 1) ∧
      e'.message_copy_ = some p :=
  c1_single_materialization ⟨0, none, none, 7, true, some defaultMessageCreator⟩
    ⟨fun _ => 5, 1⟩ defaultMessageCreator 2 rfl rfl rfl

/-- Claim C5: for a const-view envelope (isConst = true), `getMessage`
never invokes the factory, never touches the cache or the heap, and
always returns the originally received shared payload, whatever the
copy-needed flag (quantified inside `e`). -/
theorem c5_const_zero_copy (e : MessageEvent) (h : MsgHeap) :
    getMessage false true e h = .ok (e.message_, e, h, 0) := by
  simp [getMessage, copyMessageIfNecessary]

/-- Claim C10: for the void placeholder instantiation, `getMessage`
returns the stored payload pointer recast, for either constness, with no
factory call, no cache write and no heap change, whatever the flag. -/
theorem c10_void_recast (isConst : Bool) (e : MessageEvent) (h : MsgHeap) :
    getMessage true isConst e h = .ok (e.message_, e, h, 0) := by
  simp [getMessage]

/-- Claim C6: `operator<` coincides with the lexicographic order over
(payload-reference identity, receipt time, copy-needed flag): a payload
difference decides alone; then a receipt-time difference; then the
flags. -/
theorem c6_lt_lexicographic (l r : MessageEvent) : ltOp l r = ltLexSpec l r := by
  unfold ltOp ltLexSpec
  by_cases hm : l.message_ = r.message_ <;>
    by_cases ht : l.receipt_time_ = r.receipt_time_ <;>
      simp [hm, ht]

/-- Claim C7: with a usable (non-empty) factory, the `assert(create_)`
inside copy materialization never fires — mutable-view `getMessage`
always succeeds; and when the materialization path is reached with no
factory supplied, the call fails fast with the assertion instead of
returning any payload. -/
theorem c7_assert_on_factory (e : MessageEvent) (h : MsgHeap) :
    (∀ f, e.create_ = some f →
      ∃ out, copyMessageIfNecessary false e h = .ok out) ∧
    (e.create_ = none → e.nonconst_need_copy_ = true → e.message_copy_ = none →
      copyMessageIfNecessary false e h = .error "assert(create_)") := by
  constructor
  · intro f hf
    unfold copyMessageIfNecessary
    split
    · exact ⟨_, rfl⟩
    · cases hm : e.message_copy_
      · rw [hf]; exact ⟨_, rfl⟩
      · exact ⟨_, rfl⟩
  · intro hf hn h0
    simp [copyMessageIfNecessary, hf, hn, h0]

/-- Witness for C7 at concrete inputs: an envelope carrying the default
factory succeeds, and a copy-needed envelope with an empty factory hits
the assertion. -/
theorem c7_assert_on_factory_witness :
    (∃ out, copyMessageIfNecessary false ⟨0, none, none, 7, true, some defaultMessageCreator⟩
      ⟨fun _ => 5, 1⟩ = .ok out) ∧
    copyMessageIfNecessary false ⟨0, none, none, 7, true, none⟩ ⟨fun _ => 5, 1⟩ =
      .error "assert(create_)" :=
  ⟨(c7_assert_on_factory ⟨0, none, none, 7, true, some defaultMessageCreator⟩
      ⟨fun _ => 5, 1⟩).1 defaultMessageCreator rfl,
    (c7_assert_on_factory ⟨0, none, none, 7, true, none⟩ ⟨fun _ => 5, 1⟩).2 rfl rfl rfl⟩

/-- Claim C8: on a copy-needed mutable-view envelope with the default
factory and a validly allocated payload, the first `getMessage` invokes
the factory once and returns a copy `p` that is a distinct instance from
the original payload but holds equal contents; mutating the copy to any
value `v` leaves the original payload's contents unchanged, and a second
`getMessage` returns the same (now mutated) instance with no further
factory call. -/
theorem c8_copy_is_independent (e : MessageEvent) (h : MsgHeap)
    (hn : e.nonconst_need_copy_ = true) (h0 : e.message_copy_ = none)
    (hf : e.create_ = some defaultMessageCreator) (hv : e.message_ < h.next) :
    ∃ p e1 h1, copyMessageIfNecessary false e h = .ok (p, e1, h1, 1) ∧
      p ≠ e.message_ ∧
      h1.store p = h.store e.message_ ∧
      h1.store e.message_ = h.store e.message_ ∧
      ∀ v, (h1.write p v).store e.message_ = h.store e.message_ ∧
        (h1.write p v).store p = v ∧
        copyMessageIfNecessary false e1 (h1.write p v) =
          .ok (p, e1, h1.write p v, 0) := by
  have hne : e.message_ ≠ h.next := Nat.ne_of_lt hv
  refine ⟨h.next, { e with message_copy_ := some h.next }, _,
    copy_materializes e h defaultMessageCreator hn h0 hf, fun hc => hne hc.symm,
    ?_, ?_, ?_⟩
  · simp [defaultMessageCreator, MsgHeap.write, hne]
  · simp [defaultMessageCreator, MsgHeap.write, hne]
  · intro v
    refine ⟨?_, ?_, copy_cached_stable _ _ _ hn rfl⟩
    · simp [defaultMessageCreator, MsgHeap.write, hne]
    · simp [MsgHeap.write]

/-- Witness for C8 at a concrete envelope over payload contents 5: the
copy lands at address 1, holds 5, and after mutating it to 6 the
original still holds 5 while a second access returns the mutated copy. -/
theorem c8_copy_is_independent_witness :
    ∃ p e1 h1, copyMessageIfNecessary false
        ⟨0, none, none, 7, true, some defaultMessageCreator⟩ ⟨fun _ => 5, 1⟩ =
        .ok (p, e1, h1, 1) ∧
      p ≠ 0 ∧
      h1.store p = 5 ∧
      h1.store 0 = 5 ∧
      ∀ v, (h1.write p v).store 0 = 5 ∧
        (h1.write p v).store p = v ∧
        copyMessageIfNecessary false e1 (h1.write p v) =
          .ok (p, e1, h1.write p v, 0) :=
  c8_copy_is_independent ⟨0, none, none, 7, true, some defaultMessageCreator⟩
    ⟨fun _ => 5, 1⟩ rfl rfl rfl (by decide)

/-- Claim C4: whenever a cross-qualification assignment (either
direction: `rhsIsConst` true or false) succeeds, the resulting envelope
carries the source's receipt time, header mapping, copy-needed flag and
copy factory unchanged, and its mutable-copy cache is empty — also when
the source had already materialized a copy (`rhs.message_copy_`
arbitrary, in particular `some c`). -/
theorem c4_conversion_frame (d : Bool) (lhs rhs : MessageEvent) (h : MsgHeap)
    (lhs' rhs' : MessageEvent) (h' : MsgHeap)
    (ha : assign d lhs rhs h = .ok (lhs', rhs', h')) :
    lhs'.receipt_time_ = rhs.receipt_time_ ∧
    lhs'.connection_header_ = rhs.connection_header_ ∧
    lhs'.nonconst_need_copy_ = rhs.nonconst_need_copy_ ∧
    lhs'.create_ = rhs.create_ ∧
    lhs'.message_copy_ = none := by
  unfold assign at ha
  cases hg : getMessage false d rhs h with
  | error s => rw [hg] at ha; cases ha
  | ok out =>
    obtain ⟨p, e', h'', k⟩ := out
    rw [hg] at ha
    cases ha
    obtain ⟨-, hch, hrt, hnc, hcr⟩ := getMessage_frame false d rhs h p rhs' h' k hg
    exact ⟨hrt, hch, hnc, hcr, rfl⟩

/-- Witness for C4 at a concrete conversion from a const-typed source
that had already materialized a copy (cache = some 3): the metadata is
preserved and the result's cache is empty. -/
theorem c4_conversion_frame_witness :
    (⟨2, none, some 0, 9, false, none⟩ : MessageEvent).receipt_time_ =
      (⟨2, some 3, some 0, 9, false, none⟩ : MessageEvent).receipt_time_ ∧
    (⟨2, none, some 0, 9, false, none⟩ : MessageEvent).connection_header_ =
      (⟨2, some 3, some 0, 9, false, none⟩ : MessageEvent).connection_header_ ∧
    (⟨2, none, some 0, 9, false, none⟩ : MessageEvent).nonconst_need_copy_ =
      (⟨2, some 3, some 0, 9, false, none⟩ : MessageEvent).nonconst_need_copy_ ∧
    (⟨2, none, some 0, 9, false, none⟩ : MessageEvent).create_ =
      (⟨2, some 3, some 0, 9, false, none⟩ : MessageEvent).create_ ∧
    (⟨2, none, some 0, 9, false, none⟩ : MessageEvent).message_copy_ = none :=
  c4_conversion_frame true ⟨1, some 4, none, 0, true, none⟩
    ⟨2, some 3, some 0, 9, false, none⟩ ⟨fun _ => 0, 10⟩
    ⟨2, none, some 0, 9, false, none⟩ ⟨2, some 3, some 0, 9, false, none⟩
    ⟨fun _ => 0, 10⟩ rfl

/-- Claim C3, counterexample: for an envelope whose header mapping is
present but lacks the "callerid" key, `getPublisherName` returns the
empty string — not the sentinel "unknown_publisher" the claim states. -/
theorem c3_missing_key_counterexample :
    (getPublisherName ⟨0, none, some 0, 0, true, none⟩ (fun _ => [("foo", "bar")])).1 = "" ∧
    (getPublisherName ⟨0, none, some 0, 0, true, none⟩
        (fun _ => [("foo", "bar")])).1 ≠ s_unknown_publisher_string_ := by
  constructor <;> decide

/-- Claim C3, amended: `getPublisherName` returns the sentinel
"unknown_publisher" when the header mapping is absent, returns the
stored value `x` when the mapping contains callerid = `x`, and returns
the empty string (inserted by `operator[]`) when the mapping is present
but lacks the "callerid" key. -/
theorem c3_publisher_name_amended (e : MessageEvent) (st : HeaderStore) (hp : Ptr) (x : String) :
    (e.connection_header_ = none →
      getPublisherName e st = (s_unknown_publisher_string_, st)) ∧
    (e.connection_header_ = some hp → mapFind? (st hp) "callerid" = some x →
      (getPublisherName e st).1 = x) ∧
    (e.connection_header_ = some hp → mapFind? (st hp) "callerid" = none →
      (getPublisherName e st).1 = "") := by
  refine ⟨fun h0 => ?_, fun hh hk => ?_, fun hh hk => ?_⟩
  · simp [getPublisherName, h0]
  · simp [getPublisherName, hh, mapIndex, hk]
  · simp [getPublisherName, hh, mapIndex, hk]

/-- Witness for C3's amended claim at concrete envelopes: absent mapping
gives the sentinel, callerid = "nodeA" gives "nodeA", and a mapping
without the key gives the empty string. -/
theorem c3_publisher_name_amended_witness :
    getPublisherName ⟨0, none, none, 0, true, none⟩ (fun _ => []) =
      (s_unknown_publisher_string_, fun _ => []) ∧
    (getPublisherName ⟨0, none, some 0, 0, true, none⟩
      (fun _ => [("callerid", "nodeA")])).1 = "nodeA" ∧
    (getPublisherName ⟨0, none, some 0, 0, true, none⟩
      (fun _ => [("foo", "bar")])).1 = "" :=
  ⟨(c3_publisher_name_amended ⟨0, none, none, 0, true, none⟩ (fun _ => []) 0 "").1 rfl,
    (c3_publisher_name_amended ⟨0, none, some 0, 0, true, none⟩
      (fun _ => [("callerid", "nodeA")]) 0 "nodeA").2.1 rfl rfl,
    (c3_publisher_name_amended ⟨0, none, some 0, 0, true, none⟩
      (fun _ => [("foo", "bar")]) 0 "").2.2 rfl rfl⟩

/-- Claim C9: on an envelope whose header mapping (shared at address
`hp`) lacks the "callerid" key, `getPublisherName` returns the empty
string and inserts an empty-string entry under "callerid" into the
shared mapping; any other envelope `e2` sharing that mapping then
observes the entry — its own lookup now returns the empty string found
in the mapping, without further modification of the store. -/
theorem c9_publisher_name_inserts (e e2 : MessageEvent) (st : HeaderStore) (hp : Ptr)
    (he : e.connection_header_ = some hp)
    (he2 : e2.connection_header_ = some hp)
    (hk : mapFind? (st hp) "callerid" = none) :
    (getPublisherName e st).1 = "" ∧
    mapFind? ((getPublisherName e st).2 hp) "callerid" = some "" ∧
    (getPublisherName e2 ((getPublisherName e st).2)).1 = "" ∧
    (getPublisherName e2 ((getPublisherName e st).2)).2 = (getPublisherName e st).2 := by
  have hfind : mapFind? (st hp ++ [("callerid", "")]) "callerid" = some "" := by
    unfold mapFind? at hk ⊢
    rw [List.find?_append]
    cases hfa : (st hp).find? (fun e => e.1 == "callerid") with
    | none => simp
    | some v => rw [hfa] at hk; simp at hk
  refine ⟨?_, ?_, ?_, ?_⟩
  · simp [getPublisherName, he, mapIndex, hk]
  · simp [getPublisherName, he, mapIndex, hk, hfind]
  · simp [getPublisherName, he, he2, mapIndex, hk, hfind]
  · funext q
    simp only [getPublisherName, he, he2, mapIndex, hk, hfind]
    by_cases hq : q = hp <;> simp [hq, hfind]

/-- Witness for C9 at a concrete pair of envelopes sharing the header
mapping at address 0, which initially lacks "callerid". -/
theorem c9_publisher_name_inserts_witness :
    (getPublisherName ⟨0, none, some 0, 0, true, none⟩ (fun _ => [("foo", "bar")])).1 = "" ∧
    mapFind? ((getPublisherName ⟨0, none, some 0, 0, true, none⟩
      (fun _ => [("foo", "bar")])).2 0) "callerid" = some "" ∧
    (getPublisherName ⟨1, none, some 0, 3, false, none⟩
      ((getPublisherName ⟨0, none, some 0, 0, true, none⟩ (fun _ => [("foo", "bar")])).2)).1 = "" ∧
    (getPublisherName ⟨1, none, some 0, 3, false, none⟩
      ((getPublisherName ⟨0, none, some 0, 0, true, none⟩ (fun _ => [("foo", "bar")])).2)).2 =
      (getPublisherName ⟨0, none, some 0, 0, true, none⟩ (fun _ => [("foo", "bar")])).2 :=
  c9_publisher_name_inserts ⟨0, none, some 0, 0, true, none⟩
    ⟨1, none, some 0, 3, false, none⟩ (fun _ => [("foo", "bar")]) 0 rfl rfl rfl

end NS_NaviCommon
